import Mathlib

/-!
Shallow embedding of the TestFlight_Apprise_Notifier status-detection and
change-notification pipeline, translated from `src/utils/testflight.py` and
`src/main.py`, together with theorems settling the specification claims.

Modelling conventions:
* Python dictionaries become association lists (`List (String × β)`) with
  dict-assignment modelled as cons-after-erase, so `List.lookup` returns the
  most recent binding.
* Wall-clock instants (`time.time()`, `datetime.now()`) become explicit `Int`
  parameters threaded through each operation.
* The network is abstracted as a `NetOutcome` value describing what the single
  `session.get` would produce: an HTTP response with a parsed page, a timeout,
  an `aiohttp.ClientError`, or some other exception.
* Each Lean function is total, which captures "never raises"; fallible Python
  paths return results carrying `TestFlightStatus.ERROR`.
-/

/-- `TestFlightStatus` enum from `utils/testflight.py` lines 19-26. -/
inductive TestFlightStatus
  | OPEN
  | FULL
  | CLOSED
  | UNKNOWN
  | ERROR
deriving DecidableEq, Repr

/-- The `.value` string of each enum member. -/
def TestFlightStatus.value : TestFlightStatus → String
  | .OPEN => "open"
  | .FULL => "full"
  | .CLOSED => "closed"
  | .UNKNOWN => "unknown"
  | .ERROR => "error"

/-- Decides whether `p` occurs as a contiguous sublist of the second list,
the semantics of the Python `in` test on strings. -/
def containsSub (p : List Char) : List Char → Bool
  | [] => p.isEmpty
  | c :: ts => p.isPrefixOf (c :: ts) || containsSub p ts

/-- Python `p in t` for strings. -/
def substrOf (p t : String) : Bool := containsSub p.toList t.toList

/-- Python `str.lower()` for the ASCII texts this program handles, defined
over the character list so that proofs can evaluate it. -/
def pyLower (s : String) : String := String.mk (s.toList.map Char.toLower)

/-- Python `str.strip()`: leading and trailing whitespace removed. -/
def pyStrip (s : String) : String :=
  String.mk ((((s.toList.dropWhile Char.isWhitespace).reverse).dropWhile
    Char.isWhitespace).reverse)

/-- `STATUS_PATTERNS` from `utils/testflight.py` lines 30-44, as an ordered
association list (Python dicts preserve insertion order, and the detection
loop iterates `.items()` in that order). -/
def STATUS_PATTERNS : List (TestFlightStatus × List String) :=
  [ (.FULL, ["this beta is full", "beta is full"]),
    (.CLOSED, ["no longer accepting testers", "not accepting any new testers",
               "this beta isn\x27t accepting"]),
    (.OPEN, ["join the beta", "start testing"]) ]

/-- The nested detection loop of `check_testflight_status`
(`utils/testflight.py` lines 297-306): first `(status, patterns)` entry with a
pattern occurring in `page_text` wins. -/
def detectStatus (page_text : String) : Option TestFlightStatus :=
  STATUS_PATTERNS.findSome? fun sp =>
    if sp.2.any fun p => substrOf p page_text then some sp.1 else none

/-- Classification of a page text exactly as the HTTP-200 branch of
`check_testflight_status` performs it: lower-case the text (lines 290/292),
run the pattern loop, default to `UNKNOWN` (lines 309-311). -/
def classify (text : String) : TestFlightStatus :=
  (detectStatus (pyLower text)).getD .UNKNOWN

/-- Modelled from the words of the spec (section 4.1 / section 8, for comparison
with `classify`): match the lower-cased text against Full-patterns, then
Closed-patterns, then Open-patterns; first match wins; no match gives
Unknown. -/
def classifySpec (text : String) : TestFlightStatus :=
  let t := pyLower text
  if (["this beta is full", "beta is full"].any fun p => substrOf p t) then
    .FULL
  else if (["no longer accepting testers", "not accepting any new testers",
            "this beta isn\x27t accepting"].any fun p => substrOf p t) then
    .CLOSED
  else if (["join the beta", "start testing"].any fun p => substrOf p t) then
    .OPEN
  else
    .UNKNOWN

/-- Python `str.capitalize()`: first character upper-cased, rest lower-cased
(used at line 302 on the already lower-case `status.value`). -/
def pyCapitalize (s : String) : String :=
  match s.toList with
  | [] => ""
  | c :: cs => String.mk (c.toUpper :: cs.map Char.toLower)

/-- Result dictionary of `check_testflight_status` (`utils/testflight.py`
lines 245-251 and the keys assigned later in the function). -/
structure CheckResult where
  url : String
  status : TestFlightStatus
  status_text : String
  cached : Bool
  rate_limited : Bool
  app_name : Option String := none
  raw_text : Option String := none
  error : Option String := none
deriving DecidableEq, Repr

/-- Removes every binding for `key`, the effect of Python `del d[key]` (and
the overwrite part of `d[key] = v`) on an association-list model. -/
def eraseKey {β : Type} (m : List (String × β)) (key : String) : List (String × β) :=
  m.filter fun e => e.1 != key

/-- The module-level cache globals of `utils/testflight.py` lines 47-50:
`_cache_enabled`, `_cache_ttl_seconds` and `_status_cache`
(url -> (result, timestamp)). -/
structure CacheState where
  enabled : Bool
  ttl : Int
  entries : List (String × (CheckResult × Int))
deriving DecidableEq, Repr

/-- `get_cached_status` (`utils/testflight.py` lines 80-101) with the current
wall-clock time explicit; returns the hit (if any) and the possibly mutated
cache (expired entries are deleted on read). -/
def get_cached_status (st : CacheState) (now : Int) (url : String) :
    Option CheckResult × CacheState :=
  if st.enabled = false then (none, st)
  else
    match List.lookup url st.entries with
    | none => (none, st)
    | some (result, timestamp) =>
        if now - timestamp < st.ttl then (some result, st)
        else (none, { st with entries := eraseKey st.entries url })

/-- `cache_status` (`utils/testflight.py` lines 104-113): store
`(result, now)` under `url` when the cache is enabled. -/
def cache_status (st : CacheState) (now : Int) (url : String) (result : CheckResult) :
    CacheState :=
  if st.enabled then
    { st with entries := (url, (result, now)) :: eraseKey st.entries url }
  else st

/-- `_request_failures` from `main.py` line 45: url -> [failure_count,
last_failure_time]. -/
abbrev FailureMap := List (String × (Nat × Int))

/-- `_circuit_breaker_threshold` (`main.py` line 46). -/
def circuit_breaker_threshold : Nat := 5

/-- `_circuit_breaker_timeout` (`main.py` line 147), in seconds. -/
def circuit_breaker_timeout : Int := 300

/-- `is_circuit_breaker_open` (`main.py` lines 154-164) with the clock
explicit; also returns the possibly mutated map, since an expired entry is
deleted by the check itself. -/
def is_circuit_breaker_open (m : FailureMap) (now : Int) (url : String) :
    Bool × FailureMap :=
  match List.lookup url m with
  | some fl =>
      if circuit_breaker_threshold ≤ fl.1 then
        if now - fl.2 < circuit_breaker_timeout then (true, m)
        else (false, eraseKey m url)
      else (false, m)
  | none => (false, m)

/-- `record_request_failure` (`main.py` lines 167-172): initialise the entry
to `[0, 0]` when absent, then increment the count and stamp the time. -/
def record_request_failure (m : FailureMap) (now : Int) (url : String) : FailureMap :=
  match List.lookup url m with
  | none => (url, (1, now)) :: eraseKey m url
  | some fl => (url, (fl.1 + 1, now)) :: eraseKey m url

/-- `record_request_success` (`main.py` lines 175-178): drop the entry. -/
def record_request_success (m : FailureMap) (url : String) : FailureMap :=
  eraseKey m url

/-- A run of consecutive `record_request_failure` calls at the given times. -/
def afterFailures (m : FailureMap) (url : String) (ts : List Int) : FailureMap :=
  ts.foldl (fun acc t => record_request_failure acc t url) m

/-- The front-pruning `while` loop of `RateLimiter.acquire`
(`utils/testflight.py` lines 139-142 and 157-160): pop timestamps from the
front while strictly older than the window. -/
def prune (time_window now : Int) : List Int → List Int
  | [] => []
  | t :: ts => if now - t > time_window then prune time_window now ts else t :: ts

/-- Outcome of one `RateLimiter.acquire` call: the new timestamp queue and
the wait passed to `asyncio.sleep` when the sleep branch ran. -/
structure AcquireResult where
  requests : List Int
  slept : Option Int
deriving DecidableEq, Repr

/-- `RateLimiter.acquire` (`utils/testflight.py` lines 133-163). `now` is
`datetime.now()` on entry and `nowAfterSleep` stands for `datetime.now()`
after the `asyncio.sleep` (only used when the sleep branch runs). When at
capacity on an empty queue the source would raise `IndexError` on
`self.requests[0]`; the model uses a default of `0` there, and every theorem
below stays away from that corner by keeping `max_requests` positive. -/
def RateLimiter.acquire (max_requests : Nat) (time_window : Int)
    (requests : List Int) (now nowAfterSleep : Int) : AcquireResult :=
  let pruned := prune time_window now requests
  if max_requests ≤ pruned.length then
    let oldest := pruned.headD 0
    let wait_time := oldest + time_window - now
    if 0 < wait_time then
      let pruned2 := prune time_window nowAfterSleep pruned
      { requests := pruned2 ++ [nowAfterSleep], slept := some wait_time }
    else
      { requests := pruned ++ [now], slept := none }
  else
    { requests := pruned ++ [now], slept := none }

/-- `n` back-to-back `acquire` calls at one instant `t`, starting from the
empty queue; the `Bool` records whether every call avoided the sleep
branch. -/
def acquireSeq (max_requests : Nat) (time_window t : Int) : Nat → List Int × Bool
  | 0 => ([], true)
  | n + 1 =>
      let prev := acquireSeq max_requests time_window t n
      let r := RateLimiter.acquire max_requests time_window prev.1 t t
      (r.requests, prev.2 && r.slept.isNone)

/-- Python f-string rendering of `last_error`, which is `None` or a string. -/
def optionStr : Option String → String
  | none => "None"
  | some s => s

/-- The retry loop of `check_testflight_status_with_retry`
(`utils/testflight.py` lines 403-456). The list holds the result of each
successive `check_testflight_status` call (which never raises, see
`check_error_paths` below); the accumulators are `last_error` and
`last_result`. Returns the final result together with the number of attempts
actually made. -/
def retryLoop (url : String) (max_retries : Nat) :
    List CheckResult → Option String → Option CheckResult → CheckResult × Nat
  | [], last_error, last_result =>
      (match last_result with
       | some r =>
           ({ r with error := some ("Failed after " ++ toString max_retries
              ++ " retries: " ++ optionStr last_error) }, 0)
       | none =>
           ({ url := url, status := .ERROR, status_text := "Error",
              error := some ("Failed after " ++ toString max_retries
                ++ " retries: " ++ optionStr last_error),
              cached := false, rate_limited := false }, 0))
  | r :: rest, _, _ =>
      if r.status ≠ TestFlightStatus.ERROR then (r, 1)
      else
        let next := retryLoop url max_retries rest
          (some (r.error.getD "Unknown error")) (some r)
        (next.1, next.2 + 1)

/-- `check_testflight_status_with_retry`, with the underlying fetches
abstracted as the list of results the `range(max_retries)` iterations would
observe. -/
def check_testflight_status_with_retry (url : String) (max_retries : Nat)
    (attempts : List CheckResult) : CheckResult × Nat :=
  retryLoop url max_retries (attempts.take max_retries) none none

/-- The parts of the fetched HTML document that `check_testflight_status`
actually inspects after `BeautifulSoup` parsing: the `<title>` text (if a
title tag exists), the text of the `.beta-status span` element (if present),
and the whole-page text as produced by `soup.get_text(separator=" ")`. -/
structure Page where
  title : Option String
  statusElement : Option String
  fullText : String
deriving DecidableEq, Repr

/-- What the single `session.get(url)` inside `check_testflight_status`
produces: an HTTP response with a status code and parsed body, an
`asyncio.TimeoutError`, an `aiohttp.ClientError`, or any other exception. -/
inductive NetOutcome
  | resp (httpStatus : Nat) (page : Page)
  | timeout
  | clientError (msg : String)
  | otherError (msg : String)
deriving DecidableEq, Repr

/-- Observable side effects of the fetch path. The three circuit-breaker
constructors are part of the observation alphabet so that claims about
consulting or updating the breaker can be stated; the code under
`fetch_testflight_status` / `check_testflight_status` never performs them. -/
inductive FetchEvent
  | rateLimitAcquire
  | httpGet (url : String)
  | metricsRecord (status : TestFlightStatus) (success : Bool)
  | notifySent (tf_id : String)
  | cbConsult (url : String)
  | cbRecordFailure (url : String)
  | cbRecordSuccess (url : String)
deriving DecidableEq, Repr

/-- App-name extraction from the page title (`utils/testflight.py` lines
272-279): strip the title, and when `" beta - TestFlight"` occurs in it take
the part before it and delete every `"Join the "`. -/
def extractAppName : Option String → Option String
  | none => none
  | some t =>
      let title_text := pyStrip t
      if substrOf " beta - TestFlight" title_text then
        some (((title_text.splitOn " beta - TestFlight").headD "").replace "Join the " "")
      else none

/-- The body of the `try` block of `check_testflight_status`
(`utils/testflight.py` lines 253-337) together with the rate-limit
acquisition, reached when the cache did not answer: dispatches on what the
`session.get` produced. `cache1` is the cache state after the initial
lookup. -/
def check_request (cache1 : CacheState) (now : Int) (url : String)
    (timeout : Nat) (use_rate_limit : Bool) :
    NetOutcome → CheckResult × CacheState × List FetchEvent
  | .resp httpStatus page =>
      let ev := (if use_rate_limit then [FetchEvent.rateLimitAcquire] else [])
        ++ [FetchEvent.httpGet url]
      let result0 : CheckResult :=
        { url := url, status := .UNKNOWN, status_text := "Unknown",
          cached := false, rate_limited := use_rate_limit }
      if httpStatus = 404 then
        ({ result0 with
           status := .ERROR, status_text := "Not Found (404)",
           error := some "TestFlight page does not exist" }, cache1, ev)
      else if httpStatus ≠ 200 then
        ({ result0 with
           status := .ERROR,
           status_text := "HTTP " ++ toString httpStatus,
           error := some ("HTTP error: " ++ toString httpStatus) }, cache1, ev)
      else
        let app_name := extractAppName page.title
        let raw_status_text :=
          match page.statusElement with
          | some s => pyStrip s
          | none => ""
        let page_text :=
          if raw_status_text = "" then pyLower page.fullText
          else pyLower raw_status_text
        let raw_text :=
          if raw_status_text ≠ "" then raw_status_text
          else String.mk (page_text.toList.take 100)
        let result1 := { result0 with
          app_name := app_name, raw_text := some raw_text }
        let result2 :=
          match detectStatus page_text with
          | some st =>
              { result1 with status := st, status_text := pyCapitalize st.value }
          | none =>
              { result1 with status := .UNKNOWN, status_text := "Unknown status" }
        (result2, cache_status cache1 now url result2, ev)
  | .timeout =>
      let ev := (if use_rate_limit then [FetchEvent.rateLimitAcquire] else [])
        ++ [FetchEvent.httpGet url]
      let result0 : CheckResult :=
        { url := url, status := .UNKNOWN, status_text := "Unknown",
          cached := false, rate_limited := use_rate_limit }
      ({ result0 with
         status := .ERROR, status_text := "Timeout",
         error := some ("Request timed out after " ++ toString timeout ++ "s") },
       cache1, ev)
  | .clientError msg =>
      let ev := (if use_rate_limit then [FetchEvent.rateLimitAcquire] else [])
        ++ [FetchEvent.httpGet url]
      let result0 : CheckResult :=
        { url := url, status := .UNKNOWN, status_text := "Unknown",
          cached := false, rate_limited := use_rate_limit }
      ({ result0 with
         status := .ERROR, status_text := "Network Error",
         error := some ("Network error: " ++ msg) }, cache1, ev)
  | .otherError msg =>
      let ev := (if use_rate_limit then [FetchEvent.rateLimitAcquire] else [])
        ++ [FetchEvent.httpGet url]
      let result0 : CheckResult :=
        { url := url, status := .UNKNOWN, status_text := "Unknown",
          cached := false, rate_limited := use_rate_limit }
      ({ result0 with
         status := .ERROR, status_text := "Error",
         error := some ("Unexpected error: " ++ msg) }, cache1, ev)

/-- `check_testflight_status` (`utils/testflight.py` lines 205-337). Returns
the result dictionary, the cache state afterwards, and the emitted events.
The rate limiter itself is modelled separately (`RateLimiter.acquire`); here
its invocation is the `rateLimitAcquire` event. -/
def check_testflight_status (cache : CacheState) (now : Int) (url : String)
    (timeout : Nat) (use_cache use_rate_limit : Bool) (net : NetOutcome) :
    CheckResult × CacheState × List FetchEvent :=
  let gc := if use_cache then get_cached_status cache now url else (none, cache)
  match gc.1 with
  | some r => ({ r with cached := true, rate_limited := false }, gc.2, [])
  | none => check_request gc.2 now url timeout use_rate_limit net

/-- `TESTFLIGHT_URL` (`main.py` line 266). -/
def TESTFLIGHT_URL : String := "https://testflight.apple.com/join/"

/-- `format_link` (`utils/formatting.py` lines 167-168). -/
def format_link (base_url tf_id : String) : String :=
  String.mk ((base_url.toList.reverse.dropWhile fun c => c == '/').reverse)
    ++ "/" ++ String.mk (tf_id.toList.dropWhile fun c => c == '/')

/-- State after one `fetch_testflight_status` call: the previous-status map
(`_previous_status`), the circuit-breaker map (`_request_failures`), the
status cache, and the emitted events. -/
structure FetchOut where
  prev : List (String × TestFlightStatus)
  breaker : FailureMap
  cache : CacheState
  events : List FetchEvent
deriving DecidableEq, Repr

/-- `fetch_testflight_status` (`main.py` lines 2565-2646), non-exception
path: the check result is computed, metrics are recorded with
`success=True`, `ERROR` results return before touching `_previous_status`,
and otherwise the previous-status map is updated and the notify decision is
taken exactly as in the `FULL`/`CLOSED`/`OPEN`/else chain of the source. The
circuit-breaker map is threaded through untouched, as in the source, which
never consults it here. -/
def fetch_testflight_status (tf_id : String) (cache : CacheState) (now : Int)
    (net : NetOutcome) (prev : List (String × TestFlightStatus))
    (breaker : FailureMap) : FetchOut :=
  let testflight_url := format_link TESTFLIGHT_URL tf_id
  let C := check_testflight_status cache now testflight_url 10 true true net
  let result := C.1
  let cache2 := C.2.1
  let ev := C.2.2 ++ [FetchEvent.metricsRecord result.status true]
  if result.status = TestFlightStatus.ERROR then
    { prev := prev, breaker := breaker, cache := cache2, events := ev }
  else
    let previous_status := List.lookup tf_id prev
    let prev2 := (tf_id, result.status) :: eraseKey prev tf_id
    let status_changed : Bool := decide (previous_status ≠ some result.status)
    let should_notify : Bool :=
      if result.status = TestFlightStatus.FULL then
        status_changed && decide (previous_status = some TestFlightStatus.OPEN)
      else if result.status = TestFlightStatus.CLOSED then
        false
      else if result.status = TestFlightStatus.OPEN then
        decide (previous_status = none)
          || decide (previous_status ≠ some TestFlightStatus.OPEN)
      else
        false
    { prev := prev2, breaker := breaker, cache := cache2,
      events := ev ++ if should_notify then [FetchEvent.notifySent tf_id] else [] }

/-- Recognises notification events. -/
def isNotifyEvent : FetchEvent → Bool
  | FetchEvent.notifySent _ => true
  | _ => false

/-- Number of notifications sent in an event trace. -/
def notifyCount (events : List FetchEvent) : Nat :=
  events.countP isNotifyEvent

/-- `MetricsCollector` counters (`main.py` lines 67-141); `start_time` and
the derived uptime are not modelled. -/
structure MetricsCollector where
  total_checks : Nat
  successful_checks : Nat
  failed_checks : Nat
  open_count : Nat
  full_count : Nat
  closed_count : Nat
  unknown_count : Nat
  error_count : Nat
deriving DecidableEq, Repr

/-- `MetricsCollector.__init__`: all counters zero. -/
def MetricsCollector.init : MetricsCollector := ⟨0, 0, 0, 0, 0, 0, 0, 0⟩

/-- Increment of `status_counts[status.value.lower()]`; every enum value is a
key of the dict, so the `if status_key in self.status_counts` guard always
passes. -/
def MetricsCollector.bumpStatus (m : MetricsCollector) :
    TestFlightStatus → MetricsCollector
  | .OPEN => { m with open_count := m.open_count + 1 }
  | .FULL => { m with full_count := m.full_count + 1 }
  | .CLOSED => { m with closed_count := m.closed_count + 1 }
  | .UNKNOWN => { m with unknown_count := m.unknown_count + 1 }
  | .ERROR => { m with error_count := m.error_count + 1 }

/-- `MetricsCollector.record_check` (`main.py` lines 89-106). -/
def MetricsCollector.record_check (m : MetricsCollector)
    (status : TestFlightStatus) (success : Bool) : MetricsCollector :=
  let m1 := { m with total_checks := m.total_checks + 1 }
  if success then
    let m2 := { m1 with successful_checks := m1.successful_checks + 1 }
    m2.bumpStatus status
  else
    { m1 with
      failed_checks := m1.failed_checks + 1,
      error_count := m1.error_count + 1 }

/-- `MetricsCollector.reset` (`main.py` lines 128-141). -/
def MetricsCollector.reset (_ : MetricsCollector) : MetricsCollector :=
  MetricsCollector.init

/-- The operations the rest of the program performs on the collector. -/
inductive MetricsOp
  | record (status : TestFlightStatus) (success : Bool)
  | reset
deriving DecidableEq, Repr

/-- Runs one metrics operation. -/
def applyMetricsOp (m : MetricsCollector) : MetricsOp → MetricsCollector
  | .record status success => m.record_check status success
  | .reset => m.reset

/-- Collector state after a history of operations starting from `init`. -/
def applyMetricsOps (ops : List MetricsOp) : MetricsCollector :=
  ops.foldl applyMetricsOp MetricsCollector.init

/-- Counter fields of the `get_stats` snapshot (`main.py` lines 108-126);
the dict copies the three counters verbatim. -/
structure MetricsStats where
  total_checks : Nat
  successful_checks : Nat
  failed_checks : Nat
deriving DecidableEq, Repr

/-- `MetricsCollector.get_stats`, restricted to the counter fields. -/
def MetricsCollector.get_stats (m : MetricsCollector) : MetricsStats :=
  ⟨m.total_checks, m.successful_checks, m.failed_checks⟩

/-- C3: classification matches patterns against the lower-cased text in fixed
priority order Full, then Closed, then Open; the category of the first
matching pattern is returned, and a text matching no pattern classifies as Unknown. -/
theorem classify_priority_order (text : String) : classify text = classifySpec text := by
  unfold classify classifySpec detectStatus STATUS_PATTERNS
  simp only [List.findSome?_cons]
  by_cases h1 : (["this beta is full", "beta is full"].any fun p => substrOf p (pyLower text))
  · simp [h1]
  · simp only [h1, if_false]
    by_cases h2 : (["no longer accepting testers", "not accepting any new testers",
        "this beta isn\x27t accepting"].any fun p => substrOf p (pyLower text))
    · simp [h2]
    · simp only [h2, if_false]
      by_cases h3 : (["join the beta", "start testing"].any fun p => substrOf p (pyLower text))
      · simp [h3]
      · simp [h3, List.findSome?, Option.getD]

theorem lookup_eraseKey {β : Type} (m : List (String × β)) (key : String) :
    List.lookup key (eraseKey m key) = none := by
  induction m with
  | nil => rfl
  | cons e rest ih =>
      by_cases h : e.1 = key
      · simp [eraseKey, h] at ih ⊢
        exact ih
      · have hne : (e.1 != key) = true := by simp [bne, h]
        simp only [eraseKey, List.filter_cons, hne, if_true]
        rw [List.lookup_cons]
        have : (key == e.1) = false := by
          simp [beq_iff_eq]
          exact fun hk => h hk.symm
        simp only [this]
        simpa [eraseKey] using ih

/-- C8: while the cache is enabled, a `cache_status` followed by a
`get_cached_status` within the TTL returns the stored result, and a
`get_cached_status` once the age of the entry reaches the TTL returns `none` and
removes the entry. -/
theorem cache_roundtrip_and_expiry (st : CacheState) (url : String)
    (r : CheckResult) (now now2 : Int) (henabled : st.enabled = true) :
    ((now2 - now < st.ttl) →
        get_cached_status (cache_status st now url r) now2 url =
          (some r, cache_status st now url r))
    ∧ ((st.ttl ≤ now2 - now) →
        (get_cached_status (cache_status st now url r) now2 url).1 = none
        ∧ List.lookup url
            (get_cached_status (cache_status st now url r) now2 url).2.entries = none) := by
  have hstore : cache_status st now url r =
      { st with entries := (url, (r, now)) :: eraseKey st.entries url } := by
    simp [cache_status, henabled]
  constructor
  · intro hfresh
    rw [hstore]
    simp [get_cached_status, henabled, List.lookup_cons, hfresh]
  · intro hstale
    have hns : ¬ (now2 - now < st.ttl) := not_lt.mpr hstale
    rw [hstore]
    set es2 := (url, (r, now)) :: eraseKey st.entries url with hes2
    have hget : get_cached_status { st with entries := es2 } now2 url =
        (none, { st with entries := eraseKey es2 url }) := by
      simp [get_cached_status, henabled, List.lookup_cons, hns, hes2]
    rw [hget]
    exact ⟨rfl, lookup_eraseKey _ _⟩

/-- Witness for `cache_roundtrip_and_expiry` at a concrete state. -/
theorem cache_roundtrip_and_expiry_witness :
    let st : CacheState := { enabled := true, ttl := 300, entries := [] }
    let r : CheckResult :=
      { url := "u", status := .OPEN, status_text := "Open",
        cached := false, rate_limited := true }
    get_cached_status (cache_status st 100 "u" r) 200 "u" =
        (some r, cache_status st 100 "u" r)
    ∧ (get_cached_status (cache_status st 100 "u" r) 400 "u").1 = none := by
  intro st r
  refine ⟨(cache_roundtrip_and_expiry st "u" r 100 200 rfl).1 (by decide),
    ((cache_roundtrip_and_expiry st "u" r 100 400 rfl).2 (by decide)).1⟩

theorem lookup_record_failure (m : FailureMap) (url : String) (t : Int) :
    List.lookup url (record_request_failure m t url) =
      some ((((List.lookup url m).map Prod.fst).getD 0) + 1, t) := by
  unfold record_request_failure
  cases h : List.lookup url m with
  | none => simp [List.lookup_cons]
  | some fl => simp [List.lookup_cons]

/-- C7: five consecutive recorded failures with no intervening success open
the circuit while less than 300 seconds have passed since the last failure; a
single recorded success closes it immediately by clearing the key; and once
300 seconds have elapsed, the check itself clears the key and reports the
circuit closed. -/
theorem circuit_breaker_behaviour (m : FailureMap) (url : String)
    (t1 t2 t3 t4 t5 now : Int) (h0 : List.lookup url m = none) :
    let m5 := afterFailures m url [t1, t2, t3, t4, t5]
    (now - t5 < 300 → (is_circuit_breaker_open m5 now url).1 = true)
    ∧ ((is_circuit_breaker_open (record_request_success m5 url) now url).1 = false
        ∧ List.lookup url (record_request_success m5 url) = none)
    ∧ (300 ≤ now - t5 → (is_circuit_breaker_open m5 now url).1 = false
        ∧ List.lookup url (is_circuit_breaker_open m5 now url).2 = none) := by
  intro m5
  have hm5 : m5 = record_request_failure (record_request_failure (record_request_failure
      (record_request_failure (record_request_failure m t1 url) t2 url) t3 url)
      t4 url) t5 url := by
    simp [m5, afterFailures, List.foldl]
  have l1 : List.lookup url (record_request_failure m t1 url) = some (1, t1) := by
    rw [lookup_record_failure, h0]; rfl
  have l2 : List.lookup url
      (record_request_failure (record_request_failure m t1 url) t2 url) = some (2, t2) := by
    rw [lookup_record_failure, l1]; rfl
  have l3 : List.lookup url (record_request_failure (record_request_failure
      (record_request_failure m t1 url) t2 url) t3 url) = some (3, t3) := by
    rw [lookup_record_failure, l2]; rfl
  have l4 : List.lookup url (record_request_failure (record_request_failure
      (record_request_failure (record_request_failure m t1 url) t2 url) t3 url)
      t4 url) = some (4, t4) := by
    rw [lookup_record_failure, l3]; rfl
  have l5 : List.lookup url m5 = some (5, t5) := by
    rw [hm5, lookup_record_failure, l4]; rfl
  refine ⟨?_, ⟨?_, ?_⟩, ?_⟩
  · intro hfresh
    simp [is_circuit_breaker_open, l5, circuit_breaker_threshold,
      circuit_breaker_timeout, hfresh]
  · have hsucc : List.lookup url (record_request_success m5 url) = none :=
      lookup_eraseKey _ _
    simp [is_circuit_breaker_open, hsucc]
  · exact lookup_eraseKey _ _
  · intro hstale
    have hns : ¬ (now - t5 < 300) := not_lt.mpr hstale
    constructor
    · simp [is_circuit_breaker_open, l5, circuit_breaker_threshold,
        circuit_breaker_timeout, hns]
    · have hopen : is_circuit_breaker_open m5 now url = (false, eraseKey m5 url) := by
        simp [is_circuit_breaker_open, l5, circuit_breaker_threshold,
          circuit_breaker_timeout, hns]
      rw [hopen]
      exact lookup_eraseKey _ _

/-- Witness for `circuit_breaker_behaviour` at a concrete key and times. -/
theorem circuit_breaker_behaviour_witness :
    let m5 := afterFailures [] "https://testflight.apple.com/join/abc12345" [1, 2, 3, 4, 5]
    (is_circuit_breaker_open m5 10 "https://testflight.apple.com/join/abc12345").1 = true
    ∧ (is_circuit_breaker_open
        (record_request_success m5 "https://testflight.apple.com/join/abc12345") 10
        "https://testflight.apple.com/join/abc12345").1 = false
    ∧ (is_circuit_breaker_open m5 400 "https://testflight.apple.com/join/abc12345").1 = false := by
  intro m5
  refine ⟨?_, ?_, ?_⟩
  · exact (circuit_breaker_behaviour [] "https://testflight.apple.com/join/abc12345"
      1 2 3 4 5 10 rfl).1 (by decide)
  · exact ((circuit_breaker_behaviour [] "https://testflight.apple.com/join/abc12345"
      1 2 3 4 5 10 rfl).2.1).1
  · exact ((circuit_breaker_behaviour [] "https://testflight.apple.com/join/abc12345"
      1 2 3 4 5 400 rfl).2.2 (by decide)).1

theorem prune_same_instant (time_window t : Int) (hw : 0 ≤ time_window) (n : Nat) :
    prune time_window t (List.replicate n t) = List.replicate n t := by
  cases n with
  | zero => rfl
  | succ k =>
      have h : ¬ (t - t > time_window) := by omega
      rw [List.replicate_succ]
      simp only [prune]
      rw [if_neg h]

theorem acquireSeq_under_capacity (max_requests : Nat) (time_window t : Int)
    (hw : 0 ≤ time_window) :
    ∀ n, n ≤ max_requests →
      acquireSeq max_requests time_window t n = (List.replicate n t, true) := by
  intro n
  induction n with
  | zero => intro _; rfl
  | succ k ih =>
      intro hle
      have hk : k ≤ max_requests := Nat.le_of_succ_le hle
      have hprev := ih hk
      have hlen : ¬ (max_requests ≤ (prune time_window t (List.replicate k t)).length) := by
        rw [prune_same_instant time_window t hw k]
        simp only [List.length_replicate]
        omega
      simp only [acquireSeq, hprev, RateLimiter.acquire, hlen, if_false]
      rw [prune_same_instant time_window t hw k, ← List.replicate_succ']
      simp

/-- C9: `max_requests` immediate `acquire` calls from an empty queue all
avoid the sleep branch; the `(max_requests+1)`-th immediate call enters the
sleep branch with a wait equal to the time until the oldest timestamp exits
the window, and re-prunes timestamps older than the window before appending
its own. -/
theorem rate_limiter_capacity (max_requests : Nat) (time_window t t2 : Int)
    (hm : 0 < max_requests) (hw : 0 < time_window) :
    (acquireSeq max_requests time_window t max_requests).2 = true
    ∧ RateLimiter.acquire max_requests time_window
        (acquireSeq max_requests time_window t max_requests).1 t t2 =
      { requests :=
          prune time_window t2 (List.replicate max_requests t) ++ [t2],
        slept := some time_window } := by
  have hseq := acquireSeq_under_capacity max_requests time_window t
    (le_of_lt hw) max_requests (le_refl max_requests)
  constructor
  · rw [hseq]
  · rw [hseq]
    have hpr : prune time_window t (List.replicate max_requests t) =
        List.replicate max_requests t := prune_same_instant time_window t (le_of_lt hw) _
    have hlen : max_requests ≤ (prune time_window t (List.replicate max_requests t)).length := by
      rw [hpr]; simp
    have hhead : (prune time_window t (List.replicate max_requests t)).headD 0 = t := by
      rw [hpr]
      cases max_requests with
      | zero => omega
      | succ k => simp [List.replicate]
    simp only [RateLimiter.acquire, hlen, if_true, hhead]
    have hwait : t + time_window - t = time_window := by ring
    rw [hwait]
    simp only [hw, if_true, hpr]

/-- Witness for `rate_limiter_capacity` with capacity 3 over a 60 s window. -/
theorem rate_limiter_capacity_witness :
    (acquireSeq 3 60 100 3).2 = true
    ∧ RateLimiter.acquire 3 60 (acquireSeq 3 60 100 3).1 100 170 =
      { requests := prune 60 170 (List.replicate 3 100) ++ [170], slept := some 60 } :=
  rate_limiter_capacity 3 60 100 170 (by decide) (by decide)

theorem retryLoop_nil (url : String) (max_retries : Nat) (e : Option String)
    (lr : Option CheckResult) :
    retryLoop url max_retries [] e lr =
      (match lr with
       | some r =>
           ({ r with error := some ("Failed after " ++ toString max_retries
              ++ " retries: " ++ optionStr e) }, 0)
       | none =>
           ({ url := url, status := .ERROR, status_text := "Error",
              error := some ("Failed after " ++ toString max_retries
                ++ " retries: " ++ optionStr e),
              cached := false, rate_limited := false }, 0)) := rfl

theorem retryLoop_cons (url : String) (max_retries : Nat) (r : CheckResult)
    (rest : List CheckResult) (e : Option String) (lr : Option CheckResult) :
    retryLoop url max_retries (r :: rest) e lr =
      if r.status ≠ TestFlightStatus.ERROR then (r, 1)
      else
        ((retryLoop url max_retries rest (some (r.error.getD "Unknown error")) (some r)).1,
         (retryLoop url max_retries rest (some (r.error.getD "Unknown error")) (some r)).2 + 1) := rfl

theorem retryLoop_all_error (url : String) (max_retries : Nat) :
    ∀ (l : List CheckResult) (e : Option String) (lr : Option CheckResult),
      (∀ r ∈ l, r.status = TestFlightStatus.ERROR) →
      ∀ last, l.getLast? = some last →
        retryLoop url max_retries l e lr =
          ({ last with error := some ("Failed after " ++ toString max_retries
             ++ " retries: " ++ (last.error.getD "Unknown error")) }, l.length) := by
  intro l
  induction l with
  | nil => intro e lr _ last hlast; simp at hlast
  | cons r rest ih =>
      intro e lr hall last hlast
      have hr : r.status = TestFlightStatus.ERROR := hall r (by simp)
      have hne : ¬ (r.status ≠ TestFlightStatus.ERROR) := by simp [hr]
      rw [retryLoop_cons, if_neg hne]
      cases rest with
      | nil =>
          simp only [List.getLast?_singleton, Option.some.injEq] at hlast
          subst hlast
          rw [retryLoop_nil]
          simp [optionStr]
      | cons r2 rest2 =>
          have hall2 : ∀ x ∈ r2 :: rest2, x.status = TestFlightStatus.ERROR := by
            intro x hx; exact hall x (by simp [hx])
          have hlast2 : (r2 :: rest2).getLast? = some last := by
            rwa [List.getLast?_cons_cons] at hlast
          rw [ih (some (r.error.getD "Unknown error")) (some r) hall2 last hlast2]
          simp [List.length_cons]

theorem retryLoop_first_success (url : String) (max_retries : Nat) :
    ∀ (pre : List CheckResult) (r : CheckResult) (rest : List CheckResult)
      (e : Option String) (lr : Option CheckResult),
      (∀ p ∈ pre, p.status = TestFlightStatus.ERROR) →
      r.status ≠ TestFlightStatus.ERROR →
      retryLoop url max_retries (pre ++ r :: rest) e lr = (r, pre.length + 1) := by
  intro pre
  induction pre with
  | nil =>
      intro r rest e lr _ hr
      rw [List.nil_append, retryLoop_cons, if_pos hr]
      simp
  | cons p pre2 ih =>
      intro r rest e lr hall hr
      have hp : p.status = TestFlightStatus.ERROR := hall p (by simp)
      have hpe : ¬ (p.status ≠ TestFlightStatus.ERROR) := by simp [hp]
      rw [List.cons_append, retryLoop_cons, if_neg hpe]
      rw [ih r rest (some (p.error.getD "Unknown error")) (some p)
        (fun x hx => hall x (by simp [hx])) hr]
      simp [List.length_cons]

/-- C5: when all `max_retries` attempts produce `ERROR` results, the retry
wrapper returns an `ERROR` result whose message is
`"Failed after N retries: "` (for N = max_retries) followed by the error
of the last attempt; when some attempt produces a non-`ERROR` result, that result is
returned as-is after exactly (number of failed attempts before it) + 1
attempts, so no further attempts are made. -/
theorem retry_exhaustion_and_short_circuit (url : String) (max_retries : Nat)
    (attempts : List CheckResult) (hlen : attempts.length = max_retries)
    (hpos : 0 < max_retries) :
    ((∀ r ∈ attempts, r.status = TestFlightStatus.ERROR) →
      (check_testflight_status_with_retry url max_retries attempts).1.status =
          TestFlightStatus.ERROR
      ∧ ∀ last, attempts.getLast? = some last →
          (check_testflight_status_with_retry url max_retries attempts).1.error =
            some ("Failed after " ++ toString max_retries ++ " retries: "
              ++ (last.error.getD "Unknown error")))
    ∧ (∀ (pre : List CheckResult) (r : CheckResult) (rest : List CheckResult),
        attempts = pre ++ r :: rest →
        (∀ p ∈ pre, p.status = TestFlightStatus.ERROR) →
        r.status ≠ TestFlightStatus.ERROR →
        check_testflight_status_with_retry url max_retries attempts =
          (r, pre.length + 1)) := by
  have htake : attempts.take max_retries = attempts := by
    rw [← hlen]; exact List.take_length attempts
  constructor
  · intro hall
    have hne2 : attempts ≠ [] := by
      intro h; rw [h] at hlen; simp at hlen; omega
    have hlast := List.getLast?_eq_getLast attempts hne2
    set last := attempts.getLast hne2 with hlastdef
    have hmain := retryLoop_all_error url max_retries attempts none none hall last hlast
    constructor
    · unfold check_testflight_status_with_retry
      rw [htake, hmain]
      simpa using hall last (List.getLast_mem hne2)
    · intro last2 hlast2
      rw [hlast] at hlast2
      injection hlast2 with hl2
      subst hl2
      unfold check_testflight_status_with_retry
      rw [htake, hmain]
  · intro pre r rest hsplit hall hr
    unfold check_testflight_status_with_retry
    rw [htake, hsplit]
    exact retryLoop_first_success url max_retries pre r rest none none hall hr

/-- Witness for `retry_exhaustion_and_short_circuit`: three all-error
attempts, and separately an error attempt followed by a success. -/
theorem retry_exhaustion_and_short_circuit_witness :
    let bad : CheckResult :=
      { url := "u", status := .ERROR, status_text := "Timeout",
        cached := false, rate_limited := true, error := some "Request timed out after 10s" }
    let good : CheckResult :=
      { url := "u", status := .OPEN, status_text := "Open",
        cached := false, rate_limited := true }
    (check_testflight_status_with_retry "u" 3 [bad, bad, bad]).1.error =
        some "Failed after 3 retries: Request timed out after 10s"
    ∧ check_testflight_status_with_retry "u" 3 [bad, good, bad] = (good, 2) := by
  intro bad good
  have hbad : ∀ r ∈ [bad, bad, bad], r.status = TestFlightStatus.ERROR := by
    intro r hr
    simp only [List.mem_cons, List.not_mem_nil, or_false] at hr
    rcases hr with h | h | h <;> (subst h; rfl)
  have hgood : good.status ≠ TestFlightStatus.ERROR := by
    intro hcon
    exact absurd hcon (by decide)
  constructor
  · have := ((retry_exhaustion_and_short_circuit "u" 3 [bad, bad, bad] rfl
      (by decide)).1 hbad).2 bad (by rfl)
    simpa using this
  · exact (retry_exhaustion_and_short_circuit "u" 3 [bad, good, bad] rfl (by decide)).2
      [bad] good [bad] rfl
      (by intro p hp
          simp only [List.mem_singleton] at hp
          subst hp; rfl)
      hgood

theorem check_request_events (cache1 : CacheState) (now : Int) (url : String)
    (timeout : Nat) (use_rate_limit : Bool) (net : NetOutcome) :
    (check_request cache1 now url timeout use_rate_limit net).2.2 =
      (if use_rate_limit then [FetchEvent.rateLimitAcquire] else [])
        ++ [FetchEvent.httpGet url] := by
  cases net with
  | resp s page =>
      simp only [check_request]
      split_ifs <;> rfl
  | timeout => rfl
  | clientError msg => rfl
  | otherError msg => rfl

theorem check_events_miss (cache : CacheState) (now : Int) (url : String)
    (timeout : Nat) (use_cache use_rate_limit : Bool) (net : NetOutcome)
    (hmiss : use_cache = true → (get_cached_status cache now url).1 = none) :
    (check_testflight_status cache now url timeout use_cache use_rate_limit net).2.2 =
      (if use_rate_limit then [FetchEvent.rateLimitAcquire] else [])
        ++ [FetchEvent.httpGet url] := by
  have hgc : (if use_cache then get_cached_status cache now url else (none, cache)).1
      = none := by
    cases use_cache with
    | false => rfl
    | true => simpa using hmiss rfl
  unfold check_testflight_status
  simp only [hgc]
  exact check_request_events _ now url timeout use_rate_limit net

theorem check_events_shape (cache : CacheState) (now : Int) (url : String)
    (timeout : Nat) (use_cache use_rate_limit : Bool) (net : NetOutcome) :
    (check_testflight_status cache now url timeout use_cache use_rate_limit net).2.2 = []
    ∨ (check_testflight_status cache now url timeout use_cache use_rate_limit net).2.2 =
      (if use_rate_limit then [FetchEvent.rateLimitAcquire] else [])
        ++ [FetchEvent.httpGet url] := by
  cases use_cache with
  | false =>
      right
      exact check_events_miss cache now url timeout false use_rate_limit net
        (fun h => by cases h)
  | true =>
      cases hgc : (get_cached_status cache now url).1 with
      | none =>
          right
          exact check_events_miss cache now url timeout true use_rate_limit net
            (fun _ => hgc)
      | some r =>
          left
          unfold check_testflight_status
          simp [hgc]

theorem check_no_notify (cache : CacheState) (now : Int) (url : String)
    (timeout : Nat) (use_cache use_rate_limit : Bool) (net : NetOutcome) :
    notifyCount
      (check_testflight_status cache now url timeout use_cache use_rate_limit net).2.2
      = 0 := by
  rcases check_events_shape cache now url timeout use_cache use_rate_limit net with h | h <;>
    rw [h] <;> cases use_rate_limit <;>
    simp [notifyCount, isNotifyEvent, List.countP_append, List.countP_cons]

theorem check_no_cb_events (cache : CacheState) (now : Int) (url : String)
    (timeout : Nat) (use_cache use_rate_limit : Bool) (net : NetOutcome) (u : String) :
    FetchEvent.cbConsult u ∉
        (check_testflight_status cache now url timeout use_cache use_rate_limit net).2.2
    ∧ FetchEvent.cbRecordFailure u ∉
        (check_testflight_status cache now url timeout use_cache use_rate_limit net).2.2
    ∧ FetchEvent.cbRecordSuccess u ∉
        (check_testflight_status cache now url timeout use_cache use_rate_limit net).2.2 := by
  rcases check_events_shape cache now url timeout use_cache use_rate_limit net with h | h <;>
    rw [h] <;> cases use_rate_limit <;> simp

theorem check_httpGet_mem (cache : CacheState) (now : Int) (url : String)
    (timeout : Nat) (use_rate_limit : Bool) (net : NetOutcome)
    (hmiss : (get_cached_status cache now url).1 = none) :
    FetchEvent.httpGet url ∈
      (check_testflight_status cache now url timeout true use_rate_limit net).2.2 := by
  rw [check_events_miss cache now url timeout true use_rate_limit net (fun _ => hmiss)]
  cases use_rate_limit <;> simp

/-- C4: `check_testflight_status` is a total function of its inputs (so it
never raises), and every caught exception — timeout, `aiohttp.ClientError`,
or any other exception — is converted into a result whose status is `ERROR`
and whose `error` field carries the corresponding message. -/
theorem check_error_paths (cache : CacheState) (now : Int) (url : String)
    (timeout : Nat) (use_cache use_rate_limit : Bool) (net : NetOutcome)
    (hmiss : use_cache = true → (get_cached_status cache now url).1 = none) :
    (net = NetOutcome.timeout →
      (check_testflight_status cache now url timeout use_cache use_rate_limit net).1.status
          = TestFlightStatus.ERROR
      ∧ (check_testflight_status cache now url timeout use_cache use_rate_limit net).1.error
          = some ("Request timed out after " ++ toString timeout ++ "s"))
    ∧ (∀ msg, net = NetOutcome.clientError msg →
      (check_testflight_status cache now url timeout use_cache use_rate_limit net).1.status
          = TestFlightStatus.ERROR
      ∧ (check_testflight_status cache now url timeout use_cache use_rate_limit net).1.error
          = some ("Network error: " ++ msg))
    ∧ (∀ msg, net = NetOutcome.otherError msg →
      (check_testflight_status cache now url timeout use_cache use_rate_limit net).1.status
          = TestFlightStatus.ERROR
      ∧ (check_testflight_status cache now url timeout use_cache use_rate_limit net).1.error
          = some ("Unexpected error: " ++ msg)) := by
  have hgc : (if use_cache then get_cached_status cache now url else (none, cache)).1
      = none := by
    cases use_cache with
    | false => rfl
    | true => simpa using hmiss rfl
  refine ⟨?_, ?_, ?_⟩
  · intro hnet
    subst hnet
    unfold check_testflight_status
    simp [hgc, check_request]
  · intro msg hnet
    subst hnet
    unfold check_testflight_status
    simp [hgc, check_request]
  · intro msg hnet
    subst hnet
    unfold check_testflight_status
    simp [hgc, check_request]

/-- Witness for `check_error_paths` with the cache disabled and a timeout. -/
theorem check_error_paths_witness :
    (check_testflight_status ⟨false, 300, []⟩ 0 "https://testflight.apple.com/join/abc12345"
        10 true true NetOutcome.timeout).1.status = TestFlightStatus.ERROR
    ∧ (check_testflight_status ⟨false, 300, []⟩ 0 "https://testflight.apple.com/join/abc12345"
        10 true true NetOutcome.timeout).1.error = some "Request timed out after 10s" := by
  have h := (check_error_paths ⟨false, 300, []⟩ 0
    "https://testflight.apple.com/join/abc12345" 10 true true NetOutcome.timeout
    (fun _ => rfl)).1 rfl
  simpa using h

/-- C2: a check that classifies as `ERROR` sends no notification and leaves
the entry of the target in the previous-status map unchanged; in particular an
HTTP 404 yields status `ERROR` with a status text containing `"404"`. -/
theorem error_sweep_preserves_state (tf_id : String) (cache : CacheState)
    (now : Int) (net : NetOutcome) (prev : List (String × TestFlightStatus))
    (breaker : FailureMap) :
    ((check_testflight_status cache now (format_link TESTFLIGHT_URL tf_id) 10 true true
        net).1.status = TestFlightStatus.ERROR →
      (fetch_testflight_status tf_id cache now net prev breaker).prev = prev
      ∧ notifyCount (fetch_testflight_status tf_id cache now net prev breaker).events = 0)
    ∧ ((get_cached_status cache now (format_link TESTFLIGHT_URL tf_id)).1 = none →
      ∀ page,
        (check_testflight_status cache now (format_link TESTFLIGHT_URL tf_id) 10 true true
            (NetOutcome.resp 404 page)).1.status = TestFlightStatus.ERROR
        ∧ (check_testflight_status cache now (format_link TESTFLIGHT_URL tf_id) 10 true true
            (NetOutcome.resp 404 page)).1.status_text = "Not Found (404)"
        ∧ substrOf "404"
            (check_testflight_status cache now (format_link TESTFLIGHT_URL tf_id) 10 true true
              (NetOutcome.resp 404 page)).1.status_text = true) := by
  constructor
  · intro hst
    have h0 := check_no_notify cache now (format_link TESTFLIGHT_URL tf_id) 10 true true net
    unfold notifyCount at h0
    unfold fetch_testflight_status
    rw [if_pos hst]
    refine ⟨rfl, ?_⟩
    simp [notifyCount, List.countP_append, List.countP_cons, isNotifyEvent, h0]
  · intro hgc page
    have hres : (check_testflight_status cache now (format_link TESTFLIGHT_URL tf_id)
        10 true true (NetOutcome.resp 404 page)).1 =
        { url := format_link TESTFLIGHT_URL tf_id, status := .ERROR,
          status_text := "Not Found (404)", cached := false, rate_limited := true,
          error := some "TestFlight page does not exist" } := by
      unfold check_testflight_status
      simp [hgc, check_request]
    rw [hres]
    refine ⟨rfl, rfl, ?_⟩
    show substrOf "404" "Not Found (404)" = true
    decide

/-- Witness for `error_sweep_preserves_state`: a 404 for a target whose last
known good status was `OPEN`. -/
theorem error_sweep_preserves_state_witness :
    (fetch_testflight_status "abc12345" ⟨false, 300, []⟩ 0
        (NetOutcome.resp 404 ⟨none, none, ""⟩)
        [("abc12345", TestFlightStatus.OPEN)] []).prev =
      [("abc12345", TestFlightStatus.OPEN)]
    ∧ notifyCount (fetch_testflight_status "abc12345" ⟨false, 300, []⟩ 0
        (NetOutcome.resp 404 ⟨none, none, ""⟩)
        [("abc12345", TestFlightStatus.OPEN)] []).events = 0
    ∧ (check_testflight_status ⟨false, 300, []⟩ 0
        (format_link TESTFLIGHT_URL "abc12345") 10 true true
        (NetOutcome.resp 404 ⟨none, none, ""⟩)).1.status = TestFlightStatus.ERROR
    ∧ substrOf "404" (check_testflight_status ⟨false, 300, []⟩ 0
        (format_link TESTFLIGHT_URL "abc12345") 10 true true
        (NetOutcome.resp 404 ⟨none, none, ""⟩)).1.status_text = true := by
  have h := error_sweep_preserves_state "abc12345" ⟨false, 300, []⟩ 0
    (NetOutcome.resp 404 ⟨none, none, ""⟩) [("abc12345", TestFlightStatus.OPEN)] []
  have h404 := h.2 rfl ⟨none, none, ""⟩
  have herr := h.1 h404.1
  exact ⟨herr.1, herr.2, h404.1, h404.2.2⟩

/-- C1: the notify decision of `fetch_testflight_status` as a function of
the previous recorded status and the current classification: no history and
`OPEN` notifies once; `OPEN` to `OPEN` notifies zero times; any non-`OPEN`
history to `OPEN` notifies once; `OPEN` to `FULL` notifies once; a `CLOSED`
classification notifies zero times. -/
theorem notify_decision (tf_id : String) (cache : CacheState) (now : Int)
    (net : NetOutcome) (prev : List (String × TestFlightStatus))
    (breaker : FailureMap) :
    (List.lookup tf_id prev = none →
      (check_testflight_status cache now (format_link TESTFLIGHT_URL tf_id) 10 true true
          net).1.status = TestFlightStatus.OPEN →
      notifyCount (fetch_testflight_status tf_id cache now net prev breaker).events = 1)
    ∧ (List.lookup tf_id prev = some TestFlightStatus.OPEN →
      (check_testflight_status cache now (format_link TESTFLIGHT_URL tf_id) 10 true true
          net).1.status = TestFlightStatus.OPEN →
      notifyCount (fetch_testflight_status tf_id cache now net prev breaker).events = 0)
    ∧ (∀ s, List.lookup tf_id prev = some s → s ≠ TestFlightStatus.OPEN →
      (check_testflight_status cache now (format_link TESTFLIGHT_URL tf_id) 10 true true
          net).1.status = TestFlightStatus.OPEN →
      notifyCount (fetch_testflight_status tf_id cache now net prev breaker).events = 1)
    ∧ (List.lookup tf_id prev = some TestFlightStatus.OPEN →
      (check_testflight_status cache now (format_link TESTFLIGHT_URL tf_id) 10 true true
          net).1.status = TestFlightStatus.FULL →
      notifyCount (fetch_testflight_status tf_id cache now net prev breaker).events = 1)
    ∧ ((check_testflight_status cache now (format_link TESTFLIGHT_URL tf_id) 10 true true
          net).1.status = TestFlightStatus.CLOSED →
      notifyCount (fetch_testflight_status tf_id cache now net prev breaker).events = 0) := by
  have h0 := check_no_notify cache now (format_link TESTFLIGHT_URL tf_id) 10 true true net
  unfold notifyCount at h0
  refine ⟨?_, ?_, ?_, ?_, ?_⟩
  · intro hprev hst
    have hne : (check_testflight_status cache now (format_link TESTFLIGHT_URL tf_id)
        10 true true net).1.status ≠ TestFlightStatus.ERROR := by
      rw [hst]; decide
    unfold fetch_testflight_status
    rw [if_neg hne]
    simp [hst, hprev, notifyCount, List.countP_append, List.countP_cons, isNotifyEvent, h0]
  · intro hprev hst
    have hne : (check_testflight_status cache now (format_link TESTFLIGHT_URL tf_id)
        10 true true net).1.status ≠ TestFlightStatus.ERROR := by
      rw [hst]; decide
    unfold fetch_testflight_status
    rw [if_neg hne]
    simp [hst, hprev, notifyCount, List.countP_append, List.countP_cons, isNotifyEvent, h0]
  · intro s hprev hs hst
    have hne : (check_testflight_status cache now (format_link TESTFLIGHT_URL tf_id)
        10 true true net).1.status ≠ TestFlightStatus.ERROR := by
      rw [hst]; decide
    unfold fetch_testflight_status
    rw [if_neg hne]
    simp [hst, hprev, hs, notifyCount, List.countP_append, List.countP_cons,
      isNotifyEvent, h0]
  · intro hprev hst
    have hne : (check_testflight_status cache now (format_link TESTFLIGHT_URL tf_id)
        10 true true net).1.status ≠ TestFlightStatus.ERROR := by
      rw [hst]; decide
    unfold fetch_testflight_status
    rw [if_neg hne]
    simp [hst, hprev, notifyCount, List.countP_append, List.countP_cons, isNotifyEvent, h0]
  · intro hst
    have hne : (check_testflight_status cache now (format_link TESTFLIGHT_URL tf_id)
        10 true true net).1.status ≠ TestFlightStatus.ERROR := by
      rw [hst]; decide
    unfold fetch_testflight_status
    rw [if_neg hne]
    simp [hst, notifyCount, List.countP_append, List.countP_cons, isNotifyEvent, h0]

/-- Witness for `notify_decision`: all five transitions at concrete inputs. -/
theorem notify_decision_witness :
    notifyCount (fetch_testflight_status "abc12345" ⟨false, 300, []⟩ 0
        (NetOutcome.resp 200 ⟨none, none, "join the beta"⟩) [] []).events = 1
    ∧ notifyCount (fetch_testflight_status "abc12345" ⟨false, 300, []⟩ 0
        (NetOutcome.resp 200 ⟨none, none, "join the beta"⟩)
        [("abc12345", TestFlightStatus.OPEN)] []).events = 0
    ∧ notifyCount (fetch_testflight_status "abc12345" ⟨false, 300, []⟩ 0
        (NetOutcome.resp 200 ⟨none, none, "join the beta"⟩)
        [("abc12345", TestFlightStatus.FULL)] []).events = 1
    ∧ notifyCount (fetch_testflight_status "abc12345" ⟨false, 300, []⟩ 0
        (NetOutcome.resp 200 ⟨none, none, "this beta is full"⟩)
        [("abc12345", TestFlightStatus.OPEN)] []).events = 1
    ∧ notifyCount (fetch_testflight_status "abc12345" ⟨false, 300, []⟩ 0
        (NetOutcome.resp 200 ⟨none, none, "no longer accepting testers"⟩) [] []).events
        = 0 := by
  refine ⟨?_, ?_, ?_, ?_, ?_⟩
  · exact (notify_decision "abc12345" ⟨false, 300, []⟩ 0
      (NetOutcome.resp 200 ⟨none, none, "join the beta"⟩) [] []).1 rfl (by decide)
  · exact (notify_decision "abc12345" ⟨false, 300, []⟩ 0
      (NetOutcome.resp 200 ⟨none, none, "join the beta"⟩)
      [("abc12345", TestFlightStatus.OPEN)] []).2.1 rfl (by decide)
  · exact (notify_decision "abc12345" ⟨false, 300, []⟩ 0
      (NetOutcome.resp 200 ⟨none, none, "join the beta"⟩)
      [("abc12345", TestFlightStatus.FULL)] []).2.2.1 TestFlightStatus.FULL rfl
      (by decide) (by decide)
  · exact (notify_decision "abc12345" ⟨false, 300, []⟩ 0
      (NetOutcome.resp 200 ⟨none, none, "this beta is full"⟩)
      [("abc12345", TestFlightStatus.OPEN)] []).2.2.2.1 rfl (by decide)
  · exact (notify_decision "abc12345" ⟨false, 300, []⟩ 0
      (NetOutcome.resp 200 ⟨none, none, "no longer accepting testers"⟩) [] []).2.2.2.2
      (by decide)

/-- C6 (amended): the sweep fetch path applies no circuit breaking. For
every input, `fetch_testflight_status` leaves the circuit-breaker map
unchanged and performs no circuit-breaker operation, and whenever the cache
does not answer it performs the HTTP request regardless of the breaker
state. -/
theorem fetch_no_circuit_breaking (tf_id : String) (cache : CacheState)
    (now : Int) (net : NetOutcome) (prev : List (String × TestFlightStatus))
    (breaker : FailureMap)
    (hmiss : (get_cached_status cache now (format_link TESTFLIGHT_URL tf_id)).1 = none) :
    (fetch_testflight_status tf_id cache now net prev breaker).breaker = breaker
    ∧ FetchEvent.httpGet (format_link TESTFLIGHT_URL tf_id) ∈
        (fetch_testflight_status tf_id cache now net prev breaker).events
    ∧ ∀ u,
        FetchEvent.cbConsult u ∉
            (fetch_testflight_status tf_id cache now net prev breaker).events
        ∧ FetchEvent.cbRecordFailure u ∉
            (fetch_testflight_status tf_id cache now net prev breaker).events
        ∧ FetchEvent.cbRecordSuccess u ∉
            (fetch_testflight_status tf_id cache now net prev breaker).events := by
  have hev := check_events_miss cache now (format_link TESTFLIGHT_URL tf_id) 10 true true
    net (fun _ => hmiss)
  refine ⟨?_, ?_, ?_⟩
  · simp only [fetch_testflight_status]
    split <;> rfl
  · simp only [fetch_testflight_status]
    split
    · simp [hev, List.mem_append]
    · simp [hev, List.mem_append]
  · intro u
    refine ⟨?_, ?_, ?_⟩ <;>
      (simp only [fetch_testflight_status]
       split <;> simp [hev, List.mem_append])

/-- Witness for `fetch_no_circuit_breaking`: a target whose circuit is open
(five failures just recorded) is still fetched over HTTP and the breaker map
stays as it was. -/
theorem fetch_no_circuit_breaking_witness :
    (fetch_testflight_status "abc12345" ⟨false, 300, []⟩ 0
        (NetOutcome.resp 200 ⟨none, none, "join the beta"⟩) []
        [("https://testflight.apple.com/join/abc12345", (5, 0))]).breaker =
      [("https://testflight.apple.com/join/abc12345", (5, 0))]
    ∧ FetchEvent.httpGet (format_link TESTFLIGHT_URL "abc12345") ∈
        (fetch_testflight_status "abc12345" ⟨false, 300, []⟩ 0
          (NetOutcome.resp 200 ⟨none, none, "join the beta"⟩) []
          [("https://testflight.apple.com/join/abc12345", (5, 0))]).events := by
  have h := fetch_no_circuit_breaking "abc12345" ⟨false, 300, []⟩ 0
    (NetOutcome.resp 200 ⟨none, none, "join the beta"⟩) []
    [("https://testflight.apple.com/join/abc12345", (5, 0))] rfl
  exact ⟨h.1, h.2.1⟩

/-- C6 counterexample: a concrete sweep in which the circuit of the target is
open (`is_circuit_breaker_open` answers `true`), yet the fetch path still
performs the HTTP request and records nothing against the breaker — so the
claim that no HTTP request is made for a target whose circuit is open, and
that fetch outcomes are recorded against the breaker, is false of the
code. -/
theorem circuit_breaking_claim_counterexample :
    (is_circuit_breaker_open [("https://testflight.apple.com/join/abc12345", (5, 0))] 0
        "https://testflight.apple.com/join/abc12345").1 = true
    ∧ FetchEvent.httpGet "https://testflight.apple.com/join/abc12345" ∈
        (fetch_testflight_status "abc12345" ⟨false, 300, []⟩ 0
          (NetOutcome.resp 200 ⟨none, none, "join the beta"⟩) []
          [("https://testflight.apple.com/join/abc12345", (5, 0))]).events
    ∧ (fetch_testflight_status "abc12345" ⟨false, 300, []⟩ 0
          (NetOutcome.resp 200 ⟨none, none, "join the beta"⟩) []
          [("https://testflight.apple.com/join/abc12345", (5, 0))]).breaker =
        [("https://testflight.apple.com/join/abc12345", (5, 0))]
    ∧ ((fetch_testflight_status "abc12345" ⟨false, 300, []⟩ 0
          (NetOutcome.resp 200 ⟨none, none, "join the beta"⟩) []
          [("https://testflight.apple.com/join/abc12345", (5, 0))]).events.countP
        (fun e => match e with
          | FetchEvent.cbConsult _ => true
          | FetchEvent.cbRecordFailure _ => true
          | FetchEvent.cbRecordSuccess _ => true
          | _ => false)) = 0 := by
  refine ⟨by decide, ?_, ?_, ?_⟩
  · decide
  · decide
  · decide

/-- C10: the collector invariant `total_checks = successful_checks +
failed_checks` holds in every state reachable from `init` by `record_check`
and `reset` operations, hence in every `get_stats` snapshot; and the fetch
path records every returned classification — `ERROR` included — with
`success = true`. -/
theorem metrics_invariant :
    (∀ ops : List MetricsOp,
      ((applyMetricsOps ops).get_stats).total_checks =
        ((applyMetricsOps ops).get_stats).successful_checks
          + ((applyMetricsOps ops).get_stats).failed_checks)
    ∧ ∀ (tf_id : String) (cache : CacheState) (now : Int) (net : NetOutcome)
        (prev : List (String × TestFlightStatus)) (breaker : FailureMap),
        FetchEvent.metricsRecord
            (check_testflight_status cache now (format_link TESTFLIGHT_URL tf_id)
              10 true true net).1.status true
          ∈ (fetch_testflight_status tf_id cache now net prev breaker).events := by
  constructor
  · have key : ∀ (ops : List MetricsOp) (m : MetricsCollector),
        m.total_checks = m.successful_checks + m.failed_checks →
        (ops.foldl applyMetricsOp m).total_checks =
          (ops.foldl applyMetricsOp m).successful_checks
            + (ops.foldl applyMetricsOp m).failed_checks := by
      intro ops
      induction ops with
      | nil => intro m hm; simpa using hm
      | cons op rest ih =>
          intro m hm
          rw [List.foldl_cons]
          apply ih
          cases op with
          | record st sflag =>
              cases sflag with
              | true =>
                  cases st <;>
                    simp [applyMetricsOp, MetricsCollector.record_check,
                      MetricsCollector.bumpStatus] <;> omega
              | false =>
                  simp [applyMetricsOp, MetricsCollector.record_check]
                  omega
          | reset =>
              simp [applyMetricsOp, MetricsCollector.reset, MetricsCollector.init]
    intro ops
    simpa [MetricsCollector.get_stats, applyMetricsOps] using
      key ops MetricsCollector.init rfl
  · intro tf_id cache now net prev breaker
    simp only [fetch_testflight_status]
    split
    · simp [List.mem_append]
    · simp [List.mem_append]
